import Mathlib

/-!
Verification development for the prisma-engines SQL migration core:
the MySQL native-type registry and validator
(`mysql_datamodel_connector.rs`), the `markMigrationRolledBack`
command (`mark_migration_rolled_back.rs`), the MySQL SQL renderer
(`mysql_renderer.rs`) and the Postgres DDL builder (`sql-ddl/postgres.rs`),
embedded shallowly as executable Lean definitions with theorems about the
behaviour stated in the design document.
-/

namespace Prisma

/-! ### String helpers

Rust's `u32::to_string` / `str::parse::<u32>()` pair, used by the native-type
argument helpers, modelled over decimal digit lists. -/

/-- The single-quote character `'` (code 39). -/
def squote : Char := Char.ofNat 39

/-- The string consisting of one single-quote character. -/
def squoteStr : String := String.mk [squote]

/-- Decimal digit character for `d < 10` (code 48 + d). -/
def decDigitChar (d : Nat) : Char := Char.ofNat (48 + d)

/-- The decimal digit characters of `n`, most significant first.
Models the output of Rust's `u32::to_string`. -/
def decDigits (n : Nat) : List Char :=
  if _h : n < 10 then [decDigitChar n]
  else decDigits (n / 10) ++ [decDigitChar (n % 10)]
termination_by n
decreasing_by exact Nat.div_lt_self (by omega) (by omega)

/-- Modelled from the spec: the literal argument strings of a native type
instance are the decimal renderings of its numeric arguments
(spec: "the literal argument list actually supplied (ordered strings,
e.g. `[\x22 10\x22 ,\x22 2\x22 ]`)"). Models `u32::to_string`. -/
def natToArgString (n : Nat) : String := String.mk (decDigits n)

/-- Is `c` a decimal digit character? -/
def isDecDigit (c : Char) : Bool := decide (48 ≤ c.toNat ∧ c.toNat ≤ 57)

/-- One step of decimal accumulation while parsing. -/
def decStep (acc : Nat) (c : Char) : Nat := acc * 10 + (c.toNat - 48)

/-- Modelled from the spec: parsing of one numeric argument string, as done by
the `datamodel_connector::helper` argument parsers (Rust `str::parse::<u32>()`):
a non-empty all-digit string parses to its decimal value, anything else fails. -/
def parseU32 (s : String) : Option Nat :=
  match s.data with
  | [] => none
  | cs => if cs.all isDecDigit then some (cs.foldl decStep 0) else none

/-! ### Errors

A single error type covering the connector error kinds the embedded code can
produce (`datamodel_connector::connector_error`), plus a `panicked` case
modelling Rust `unreachable!` / `unwrap()` aborts. -/

inductive ConnectorError where
  | scaleLargerThanPrecision (typeName dialect : String)
  | argumentMOutOfRange (message typeName dialect : String)
  | incompatibleWithUnique (typeName dialect : String)
  | incompatibleWithId (typeName dialect : String)
  | incompatibleWithIndex (typeName dialect : String)
  | argumentCountMismatch (typeName : String)
  | argumentParseFailure (typeName : String)
  | nativeTypeNameUnknown (typeName dialect : String)
  | panicked (message : String)
deriving DecidableEq, Repr

/-! ### MySQL native types (`native_types::MySqlType`) -/

inductive MySqlType where
  | Int
  | UnsignedInt
  | SmallInt
  | UnsignedSmallInt
  | TinyInt
  | UnsignedTinyInt
  | MediumInt
  | UnsignedMediumInt
  | BigInt
  | UnsignedBigInt
  | Decimal (x : Option (Nat × Nat))
  | Numeric (x : Option (Nat × Nat))
  | Float
  | Double
  | Bit (m : Nat)
  | Char (m : Nat)
  | VarChar (m : Nat)
  | Binary (m : Nat)
  | VarBinary (m : Nat)
  | TinyBlob
  | Blob
  | MediumBlob
  | LongBlob
  | TinyText
  | Text
  | MediumText
  | LongText
  | Date
  | Time (x : Option Nat)
  | DateTime (x : Option Nat)
  | Timestamp (x : Option Nat)
  | Year
  | JSON
deriving DecidableEq, Repr

/-! Type-name constants from `mysql_datamodel_connector.rs`. -/

def INT_TYPE_NAME : String := "Int"
def UNSIGNED_INT_TYPE_NAME : String := "UnsignedInt"
def SMALL_INT_TYPE_NAME : String := "SmallInt"
def UNSIGNED_SMALL_INT_TYPE_NAME : String := "UnsignedSmallInt"
def TINY_INT_TYPE_NAME : String := "TinyInt"
def UNSIGNED_TINY_INT_TYPE_NAME : String := "UnsignedTinyInt"
def MEDIUM_INT_TYPE_NAME : String := "MediumInt"
def UNSIGNED_MEDIUM_INT_TYPE_NAME : String := "UnsignedMediumInt"
def BIG_INT_TYPE_NAME : String := "BigInt"
def UNSIGNED_BIG_INT_TYPE_NAME : String := "UnsignedBigInt"
def DECIMAL_TYPE_NAME : String := "Decimal"
def NUMERIC_TYPE_NAME : String := "Numeric"
def FLOAT_TYPE_NAME : String := "Float"
def DOUBLE_TYPE_NAME : String := "Double"
def BIT_TYPE_NAME : String := "Bit"
def CHAR_TYPE_NAME : String := "Char"
def VAR_CHAR_TYPE_NAME : String := "VarChar"
def BINARY_TYPE_NAME : String := "Binary"
def VAR_BINARY_TYPE_NAME : String := "VarBinary"
def TINY_BLOB_TYPE_NAME : String := "TinyBlob"
def BLOB_TYPE_NAME : String := "Blob"
def MEDIUM_BLOB_TYPE_NAME : String := "MediumBlob"
def LONG_BLOB_TYPE_NAME : String := "LongBlob"
def TINY_TEXT_TYPE_NAME : String := "TinyText"
def TEXT_TYPE_NAME : String := "Text"
def MEDIUM_TEXT_TYPE_NAME : String := "MediumText"
def LONG_TEXT_TYPE_NAME : String := "LongText"
def DATE_TYPE_NAME : String := "Date"
def TIME_TYPE_NAME : String := "Time"
def DATETIME_TYPE_NAME : String := "Datetime"
def TIMESTAMP_TYPE_NAME : String := "Timestamp"
def YEAR_TYPE_NAME : String := "Year"
def JSON_TYPE_NAME : String := "JSON"

/-- The native type names that cannot appear in a key specification
(`NATIVE_TYPES_THAT_CAN_NOT_BE_USED_IN_KEY_SPECIFICATION`). -/
def NATIVE_TYPES_THAT_CAN_NOT_BE_USED_IN_KEY_SPECIFICATION : List String :=
  [TEXT_TYPE_NAME,
   LONG_TEXT_TYPE_NAME,
   MEDIUM_TEXT_TYPE_NAME,
   TINY_TEXT_TYPE_NAME,
   BLOB_TYPE_NAME,
   TINY_BLOB_TYPE_NAME,
   MEDIUM_BLOB_TYPE_NAME,
   LONG_BLOB_TYPE_NAME]

/-! ### Native type constructors (`dml::native_type_constructor`)

Modelled from the spec: "Native Type Constructor: name (string, unique per
connector), argument cardinality (none / exactly N / up to N optional), and
the set of logical scalar types it may legally back." -/

inductive ScalarType where
  | Int | BigInt | Float | Decimal | Boolean | String | Bytes | DateTime | Json
deriving DecidableEq, Repr

/-- Modelled from the spec: argument cardinality of a native type
constructor — none, exactly N, or up to N optional. -/
inductive ArgCardinality where
  | noArgs
  | exactly (n : Nat)
  | upTo (n : Nat)
deriving DecidableEq, Repr

structure NativeTypeConstructor where
  name : String
  cardinality : ArgCardinality
  scalarTypes : List ScalarType
deriving DecidableEq, Repr

def NativeTypeConstructor.without_args (name : String) (ts : List ScalarType) :
    NativeTypeConstructor := ⟨name, .noArgs, ts⟩

def NativeTypeConstructor.with_args (name : String) (n : Nat) (ts : List ScalarType) :
    NativeTypeConstructor := ⟨name, .exactly n, ts⟩

def NativeTypeConstructor.with_optional_args (name : String) (n : Nat)
    (ts : List ScalarType) : NativeTypeConstructor := ⟨name, .upTo n, ts⟩

/-- The MySQL connector's constructor registry, in declaration order
(`MySqlDatamodelConnector::new`). -/
def mysqlConstructors : List NativeTypeConstructor :=
  [NativeTypeConstructor.without_args INT_TYPE_NAME [ScalarType.Int],
   NativeTypeConstructor.without_args UNSIGNED_INT_TYPE_NAME [ScalarType.Int],
   NativeTypeConstructor.without_args SMALL_INT_TYPE_NAME [ScalarType.Int],
   NativeTypeConstructor.without_args UNSIGNED_SMALL_INT_TYPE_NAME [ScalarType.Int],
   NativeTypeConstructor.without_args TINY_INT_TYPE_NAME [ScalarType.Boolean, ScalarType.Int],
   NativeTypeConstructor.without_args UNSIGNED_TINY_INT_TYPE_NAME [ScalarType.Int],
   NativeTypeConstructor.without_args MEDIUM_INT_TYPE_NAME [ScalarType.Int],
   NativeTypeConstructor.without_args UNSIGNED_MEDIUM_INT_TYPE_NAME [ScalarType.Int],
   NativeTypeConstructor.without_args BIG_INT_TYPE_NAME [ScalarType.BigInt],
   NativeTypeConstructor.without_args UNSIGNED_BIG_INT_TYPE_NAME [ScalarType.BigInt],
   NativeTypeConstructor.with_optional_args DECIMAL_TYPE_NAME 2 [ScalarType.Decimal],
   NativeTypeConstructor.with_optional_args NUMERIC_TYPE_NAME 2 [ScalarType.Decimal],
   NativeTypeConstructor.without_args FLOAT_TYPE_NAME [ScalarType.Float],
   NativeTypeConstructor.without_args DOUBLE_TYPE_NAME [ScalarType.Float],
   NativeTypeConstructor.with_args BIT_TYPE_NAME 1 [ScalarType.Bytes],
   NativeTypeConstructor.with_args CHAR_TYPE_NAME 1 [ScalarType.String],
   NativeTypeConstructor.with_args VAR_CHAR_TYPE_NAME 1 [ScalarType.String],
   NativeTypeConstructor.with_args BINARY_TYPE_NAME 1 [ScalarType.Bytes],
   NativeTypeConstructor.with_args VAR_BINARY_TYPE_NAME 1 [ScalarType.Bytes],
   NativeTypeConstructor.without_args TINY_BLOB_TYPE_NAME [ScalarType.Bytes],
   NativeTypeConstructor.without_args BLOB_TYPE_NAME [ScalarType.Bytes],
   NativeTypeConstructor.without_args MEDIUM_BLOB_TYPE_NAME [ScalarType.Bytes],
   NativeTypeConstructor.without_args LONG_BLOB_TYPE_NAME [ScalarType.Bytes],
   NativeTypeConstructor.without_args TINY_TEXT_TYPE_NAME [ScalarType.String],
   NativeTypeConstructor.without_args TEXT_TYPE_NAME [ScalarType.String],
   NativeTypeConstructor.without_args MEDIUM_TEXT_TYPE_NAME [ScalarType.String],
   NativeTypeConstructor.without_args LONG_TEXT_TYPE_NAME [ScalarType.String],
   NativeTypeConstructor.without_args DATE_TYPE_NAME [ScalarType.DateTime],
   NativeTypeConstructor.with_optional_args TIME_TYPE_NAME 1 [ScalarType.DateTime],
   NativeTypeConstructor.with_optional_args DATETIME_TYPE_NAME 1 [ScalarType.DateTime],
   NativeTypeConstructor.with_optional_args TIMESTAMP_TYPE_NAME 1 [ScalarType.DateTime],
   NativeTypeConstructor.without_args YEAR_TYPE_NAME [ScalarType.Int],
   NativeTypeConstructor.without_args JSON_TYPE_NAME [ScalarType.Json]]

/-- A native type instance (`dml::native_type_instance`): constructor name,
literal argument strings, and the decoded native-type payload (the source
stores the payload serialized; equality of instances is name, args and
decoded variant). -/
structure NativeTypeInstance where
  name : String
  args : List String
  native : MySqlType
deriving DecidableEq, Repr

def NativeTypeInstance.new (name : String) (args : List String)
    (native : MySqlType) : NativeTypeInstance := ⟨name, args, native⟩

/-! ### Argument parsing helpers (`datamodel_connector::helper`)

Modelled from the spec: `parse_native_type` "fails with
`ArgumentCountMismatch` / `ArgumentOutOfRange` when args don't match the
constructor's arity"; the helpers parse one mandatory, one optional, or two
optional `u32` arguments. -/

/-- Modelled from the spec: parse exactly one `u32` argument; any other
argument count is an `ArgumentCountMismatch`. -/
def parse_one_u32 (args : List String) (typeName : String) :
    Except ConnectorError Nat :=
  match args with
  | [x] =>
    match parseU32 x with
    | some v => .ok v
    | none => .error (.argumentParseFailure typeName)
  | _ => .error (.argumentCountMismatch typeName)

/-- Modelled from the spec: parse zero or one `u32` arguments; more than one
is an `ArgumentCountMismatch`. -/
def parse_one_opt_u32 (args : List String) (typeName : String) :
    Except ConnectorError (Option Nat) :=
  match args with
  | [] => .ok none
  | [x] =>
    match parseU32 x with
    | some v => .ok (some v)
    | none => .error (.argumentParseFailure typeName)
  | _ => .error (.argumentCountMismatch typeName)

/-- Modelled from the spec: parse zero or exactly two `u32` arguments; any
other argument count is an `ArgumentCountMismatch`. -/
def parse_two_opt_u32 (args : List String) (typeName : String) :
    Except ConnectorError (Option (Nat × Nat)) :=
  match args with
  | [] => .ok none
  | [x, y] =>
    match parseU32 x, parseU32 y with
    | some a, some b => .ok (some (a, b))
    | _, _ => .error (.argumentParseFailure typeName)
  | _ => .error (.argumentCountMismatch typeName)

/-- Modelled from the spec: render an optional pair of numeric arguments back
to literal argument strings (`args_vec_from_opt`). -/
def args_vec_from_opt (x : Option (Nat × Nat)) : List String :=
  match x with
  | some (a, b) => [natToArgString a, natToArgString b]
  | none => []

/-- `arg_vec_from_opt` as defined inside `introspect_native_type`. -/
def arg_vec_from_opt (input : Option Nat) : List String :=
  match input with
  | some arg => [natToArgString arg]
  | none => []

/-! ### `parse_native_type` and `introspect_native_type`
(`mysql_datamodel_connector.rs`) -/

/-- `MySqlDatamodelConnector::parse_native_type`. An unknown name is
`unreachable!` in the source ("the core must guarantee to just call with
known names"), modelled as a `panicked` error. -/
def parse_native_type (name : String) (args : List String) :
    Except ConnectorError NativeTypeInstance := do
  let cloned_args := args
  let native : MySqlType ←
    match name with
    | "Int" => pure MySqlType.Int
    | "UnsignedInt" => pure MySqlType.UnsignedInt
    | "SmallInt" => pure MySqlType.SmallInt
    | "UnsignedSmallInt" => pure MySqlType.UnsignedSmallInt
    | "TinyInt" => pure MySqlType.TinyInt
    | "UnsignedTinyInt" => pure MySqlType.UnsignedTinyInt
    | "MediumInt" => pure MySqlType.MediumInt
    | "UnsignedMediumInt" => pure MySqlType.UnsignedMediumInt
    | "BigInt" => pure MySqlType.BigInt
    | "UnsignedBigInt" => pure MySqlType.UnsignedBigInt
    | "Decimal" => do
      let x ← parse_two_opt_u32 args DECIMAL_TYPE_NAME
      pure (MySqlType.Decimal x)
    | "Numeric" => do
      let x ← parse_two_opt_u32 args NUMERIC_TYPE_NAME
      pure (MySqlType.Numeric x)
    | "Float" => pure MySqlType.Float
    | "Double" => pure MySqlType.Double
    | "Bit" => do
      let m ← parse_one_u32 args BIT_TYPE_NAME
      pure (MySqlType.Bit m)
    | "Char" => do
      let m ← parse_one_u32 args CHAR_TYPE_NAME
      pure (MySqlType.Char m)
    | "VarChar" => do
      let m ← parse_one_u32 args VAR_CHAR_TYPE_NAME
      pure (MySqlType.VarChar m)
    | "Binary" => do
      let m ← parse_one_u32 args BINARY_TYPE_NAME
      pure (MySqlType.Binary m)
    | "VarBinary" => do
      let m ← parse_one_u32 args VAR_BINARY_TYPE_NAME
      pure (MySqlType.VarBinary m)
    | "TinyBlob" => pure MySqlType.TinyBlob
    | "Blob" => pure MySqlType.Blob
    | "MediumBlob" => pure MySqlType.MediumBlob
    | "LongBlob" => pure MySqlType.LongBlob
    | "TinyText" => pure MySqlType.TinyText
    | "Text" => pure MySqlType.Text
    | "MediumText" => pure MySqlType.MediumText
    | "LongText" => pure MySqlType.LongText
    | "Date" => pure MySqlType.Date
    | "Time" => do
      let x ← parse_one_opt_u32 args TIME_TYPE_NAME
      pure (MySqlType.Time x)
    | "Datetime" => do
      let x ← parse_one_opt_u32 args DATETIME_TYPE_NAME
      pure (MySqlType.DateTime x)
    | "Timestamp" => do
      let x ← parse_one_opt_u32 args TIMESTAMP_TYPE_NAME
      pure (MySqlType.Timestamp x)
    | "Year" => pure MySqlType.Year
    | "JSON" => pure MySqlType.JSON
    | _ => Except.error (.panicked "unknown native type name")
  pure (NativeTypeInstance.new name cloned_args native)

/-- `find_native_type_constructor`: look up a constructor by name in the
registry. -/
def find_native_type_constructor (name : String) : Option NativeTypeConstructor :=
  mysqlConstructors.find? (fun c => c.name == name)

/-- The (constructor name, literal args) pair computed by
`introspect_native_type`. -/
def introspectNameArgs (native : MySqlType) : String × List String :=
  match native with
  | .Int => (INT_TYPE_NAME, [])
  | .UnsignedInt => (UNSIGNED_INT_TYPE_NAME, [])
  | .SmallInt => (SMALL_INT_TYPE_NAME, [])
  | .UnsignedSmallInt => (UNSIGNED_SMALL_INT_TYPE_NAME, [])
  | .TinyInt => (TINY_INT_TYPE_NAME, [])
  | .UnsignedTinyInt => (UNSIGNED_TINY_INT_TYPE_NAME, [])
  | .MediumInt => (MEDIUM_INT_TYPE_NAME, [])
  | .UnsignedMediumInt => (UNSIGNED_MEDIUM_INT_TYPE_NAME, [])
  | .BigInt => (BIG_INT_TYPE_NAME, [])
  | .UnsignedBigInt => (UNSIGNED_BIG_INT_TYPE_NAME, [])
  | .Decimal x => (DECIMAL_TYPE_NAME, args_vec_from_opt x)
  | .Numeric x => (NUMERIC_TYPE_NAME, args_vec_from_opt x)
  | .Float => (FLOAT_TYPE_NAME, [])
  | .Double => (DOUBLE_TYPE_NAME, [])
  | .Bit x => (BIT_TYPE_NAME, [natToArgString x])
  | .Char x => (CHAR_TYPE_NAME, [natToArgString x])
  | .VarChar x => (VAR_CHAR_TYPE_NAME, [natToArgString x])
  | .Binary x => (BINARY_TYPE_NAME, [natToArgString x])
  | .VarBinary x => (VAR_BINARY_TYPE_NAME, [natToArgString x])
  | .TinyBlob => (TINY_BLOB_TYPE_NAME, [])
  | .Blob => (BLOB_TYPE_NAME, [])
  | .MediumBlob => (MEDIUM_BLOB_TYPE_NAME, [])
  | .LongBlob => (LONG_BLOB_TYPE_NAME, [])
  | .TinyText => (TINY_TEXT_TYPE_NAME, [])
  | .Text => (TEXT_TYPE_NAME, [])
  | .MediumText => (MEDIUM_TEXT_TYPE_NAME, [])
  | .LongText => (LONG_TEXT_TYPE_NAME, [])
  | .Date => (DATE_TYPE_NAME, [])
  | .Time x => (TIME_TYPE_NAME, arg_vec_from_opt x)
  | .DateTime x => (DATETIME_TYPE_NAME, arg_vec_from_opt x)
  | .Timestamp x => (TIMESTAMP_TYPE_NAME, arg_vec_from_opt x)
  | .Year => (YEAR_TYPE_NAME, [])
  | .JSON => (JSON_TYPE_NAME, [])

/-- `MySqlDatamodelConnector::introspect_native_type` (after the serde
decoding of the raw value, which is outside the embedding). -/
def introspect_native_type (native : MySqlType) :
    Except ConnectorError NativeTypeInstance :=
  let p := introspectNameArgs native
  match find_native_type_constructor p.1 with
  | some c => .ok (NativeTypeInstance.new c.name p.2 native)
  | none => .error (.nativeTypeNameUnknown p.1 "Mysql")

/-! ### Fields and models (`dml`)

Modelled from the spec: only the parts of `dml::field` / `dml::model` that
`validate_field` / `validate_model` consult — the field type (with an optional
native type instance), the unique / id markers, the model's indexes and
id-field set. -/

inductive FieldType where
  | base (t : ScalarType)
  | nativeType (t : ScalarType) (inst : NativeTypeInstance)
deriving DecidableEq, Repr

structure Field where
  name : String
  field_type : FieldType
  is_unique : Bool
  is_id : Bool
deriving DecidableEq, Repr

inductive IndexType where
  | Unique
  | Normal
deriving DecidableEq, Repr

structure IndexDefinition where
  fields : List String
  tpe : IndexType
deriving DecidableEq, Repr

structure Model where
  fields : List Field
  indices : List IndexDefinition
  id_fields : List String
deriving DecidableEq, Repr

/-- `Model::find_field`: look up a field by name. -/
def find_field (model : Model) (name : String) : Option Field :=
  model.fields.find? (fun f => f.name == name)

/-- `MySqlDatamodelConnector::validate_field`. -/
def validate_field (field : Field) : Except ConnectorError Unit :=
  match field.field_type with
  | .nativeType _ native_type_instance =>
    let native_type_name := native_type_instance.name
    let native_type := native_type_instance.native
    let precision_and_scale : Option (Nat × Nat) :=
      match native_type with
      | .Decimal x => x
      | .Numeric x => x
      | _ => none
    let step1 : Except ConnectorError Unit :=
      match precision_and_scale with
      | some (precision, scale) =>
        if scale > precision then
          .error (.scaleLargerThanPrecision native_type_name "MySQL")
        else if precision > 65 then
          .error (.argumentMOutOfRange "Precision can range from 1 to 65."
            native_type_name "MySQL")
        else if scale > 30 then
          .error (.argumentMOutOfRange "Scale can range from 0 to 30."
            native_type_name "MySQL")
        else .ok ()
      | none => .ok ()
    match step1 with
    | .error e => .error e
    | .ok _ =>
      let step2 : Except ConnectorError Unit :=
        match native_type with
        | .Bit length =>
          if length = 0 ∨ length > 64 then
            .error (.argumentMOutOfRange "M can range from 1 to 64."
              native_type_name "MySQL")
          else .ok ()
        | .Char length =>
          if length > 255 then
            .error (.argumentMOutOfRange "M can range from 0 to 255."
              native_type_name "MySQL")
          else .ok ()
        | .VarChar length =>
          if length > 65535 then
            .error (.argumentMOutOfRange "M can range from 0 to 65,535."
              native_type_name "MySQL")
          else .ok ()
        | _ => .ok ()
      match step2 with
      | .error e => .error e
      | .ok _ =>
        if field.is_unique &&
            NATIVE_TYPES_THAT_CAN_NOT_BE_USED_IN_KEY_SPECIFICATION.contains
              native_type_name then
          .error (.incompatibleWithUnique native_type_name "MySQL")
        else if field.is_id &&
            NATIVE_TYPES_THAT_CAN_NOT_BE_USED_IN_KEY_SPECIFICATION.contains
              native_type_name then
          .error (.incompatibleWithId native_type_name "MySQL")
        else .ok ()
  | _ => .ok ()

/-- The check `validate_model` performs on one field of one index: the
`find_field(f).unwrap()` (panic when absent), then the large-object test,
reporting incompatible-with-unique for a unique index and
incompatible-with-index otherwise. -/
def checkIndexField (model : Model) (tpe : IndexType) (fname : String) :
    Except ConnectorError Unit :=
  match find_field model fname with
  | none => .error (.panicked "find_field unwrap in validate_model")
  | some f =>
    match f.field_type with
    | .nativeType _ native_type =>
      if NATIVE_TYPES_THAT_CAN_NOT_BE_USED_IN_KEY_SPECIFICATION.contains
          native_type.name then
        if tpe = IndexType.Unique then
          .error (.incompatibleWithUnique native_type.name "MySQL")
        else
          .error (.incompatibleWithIndex native_type.name "MySQL")
      else .ok ()
    | _ => .ok ()

/-- Fold of `checkIndexField` over one index's field names, stopping at the
first error (the `for f in fields` loop of `validate_model`). -/
def checkIndexFields (model : Model) (tpe : IndexType) :
    List String → Except ConnectorError Unit
  | [] => .ok ()
  | f :: rest =>
    match checkIndexField model tpe f with
    | .error e => .error e
    | .ok _ => checkIndexFields model tpe rest

/-- Fold over the model's indexes (the first loop of `validate_model`). -/
def checkIndices (model : Model) : List IndexDefinition → Except ConnectorError Unit
  | [] => .ok ()
  | idx :: rest =>
    match checkIndexFields model idx.tpe idx.fields with
    | .error e => .error e
    | .ok _ => checkIndices model rest

/-- The check on one id field (second loop of `validate_model`). -/
def checkIdField (model : Model) (fname : String) : Except ConnectorError Unit :=
  match find_field model fname with
  | none => .error (.panicked "find_field unwrap in validate_model")
  | some f =>
    match f.field_type with
    | .nativeType _ native_type =>
      if NATIVE_TYPES_THAT_CAN_NOT_BE_USED_IN_KEY_SPECIFICATION.contains
          native_type.name then
        .error (.incompatibleWithId native_type.name "MySQL")
      else .ok ()
    | _ => .ok ()

/-- Fold over the model's id fields. -/
def checkIdFields (model : Model) : List String → Except ConnectorError Unit
  | [] => .ok ()
  | fname :: rest =>
    match checkIdField model fname with
    | .error e => .error e
    | .ok _ => checkIdFields model rest

/-- `MySqlDatamodelConnector::validate_model`. -/
def validate_model (model : Model) : Except ConnectorError Unit :=
  match checkIndices model model.indices with
  | .error e => .error e
  | .ok _ => checkIdFields model model.id_fields

/-! ### `markMigrationRolledBack` (`mark_migration_rolled_back.rs`)

A migration history record as listed by the migration persistence
(`list_migrations()`): id, migration name, optional finish and rolled-back
timestamps. -/

structure MigrationRecord where
  id : String
  migration_name : String
  finished_at : Option Nat
  rolled_back_at : Option Nat
deriving DecidableEq, Repr

inductive CoreError where
  | cannotRollBackUnappliedMigration (migration_name : String)
  | cannotRollBackSucceededMigration (migration_name : String)
deriving DecidableEq, Repr

/-- `MarkMigrationRolledBackCommand::execute`, given the records returned by
`list_migrations()`. The result is the ordered list of record ids passed to
`mark_migration_rolled_back_by_id`, one call per listed id. -/
def mark_migration_rolled_back (migration_name : String)
    (all_migrations : List MigrationRecord) : Except CoreError (List String) :=
  let relevant_migrations :=
    all_migrations.filter (fun m => m.migration_name == migration_name)
  if relevant_migrations.isEmpty then
    .error (.cannotRollBackUnappliedMigration migration_name)
  else if relevant_migrations.all (fun m => m.finished_at.isSome) then
    .error (.cannotRollBackSucceededMigration migration_name)
  else
    .ok ((relevant_migrations.filter
      (fun m => m.finished_at.isNone && m.rolled_back_at.isNone)).map
        (fun m => m.id))

/-! ### Postgres DDL builder (`sql-ddl/src/postgres.rs`) -/

inductive PostgresIdentifier where
  | Simple (s : String)
  | WithSchema (schema item : String)
deriving DecidableEq, Repr

/-- `Display` of `PostgresIdentifier`: double-quoted, schema-qualified when
present. -/
def PostgresIdentifier.render : PostgresIdentifier → String
  | .Simple ident => "\"" ++ ident ++ "\""
  | .WithSchema schema_name ident => "\"" ++ schema_name ++ "\".\"" ++ ident ++ "\""

/-- `StrLit`'s `Display`: the string between single quotes, with NO escaping
of its content (`write!(f, \x22 '\x7b\x7d'\x22 , self.0)`). -/
def strLit (s : String) : String := squoteStr ++ s ++ squoteStr

/-- Modelled from the spec: `IteratorJoin::join` — items joined by a
separator ("Column lists are always comma-joined"). -/
def joinSep (sep : String) : List String → String
  | [] => ""
  | [x] => x
  | x :: rest => x ++ sep ++ joinSep sep rest

structure CreateEnum where
  enum_name : PostgresIdentifier
  variants : List String
deriving DecidableEq, Repr

/-- `Display` of `CreateEnum` (postgres): variants as unescaped `StrLit`s,
comma-joined. -/
def CreateEnum.render (c : CreateEnum) : String :=
  "CREATE TYPE " ++ c.enum_name.render ++ " AS ENUM (" ++
    joinSep ", " (c.variants.map strLit) ++ ")"

/-- The spec's reading of the same statement ("String literals embedded in
generated SQL (enum variant names, default string values) are escaped by
doubling the dialect's quote character"): variants with every single quote
doubled before embedding. Stated for comparison with `CreateEnum.render`. -/
def CreateEnum.renderPerSpec (c : CreateEnum) : String :=
  "CREATE TYPE " ++ c.enum_name.render ++ " AS ENUM (" ++
    joinSep ", "
      (c.variants.map (fun v => strLit (String.mk (v.data.flatMap
        (fun ch => if ch = squote then [squote, squote] else [ch]))))) ++ ")"

/-! ### MySQL renderer (`mysql_renderer.rs`) and schema snapshot types
(`sql_schema_describer`) -/

/-- `Pair` of previous/next sides of a diff (`pair.rs`, modelled from the
spec's previous/next snapshot sides). -/
structure Pair (α : Type) where
  previous : α
  next : α
deriving DecidableEq, Repr

/-- Rendering aborts (`unreachable!` / `unwrap` / `unimplemented!`). -/
inductive RenderError where
  | panicked (message : String)
deriving DecidableEq, Repr

inductive ColumnTypeFamily where
  | Boolean
  | DateTime
  | Float
  | Decimal
  | Int
  | BigInt
  | String
  | Enum (name : String)
  | Json
  | Binary
  | Uuid
  | Unsupported (t : String)
deriving DecidableEq, Repr

structure ColumnType where
  full_data_type : String
  family : ColumnTypeFamily
deriving DecidableEq, Repr

/-- The prisma values that can appear in literal defaults. -/
inductive PrismaValue where
  | string (s : String)
  | enum (s : String)
  | boolean (b : Bool)
  | int (n : Int)
deriving DecidableEq, Repr

/-- Modelled from the spec: the `Display` of a literal prisma value as used
in `render_default`'s fallthrough arms. -/
def PrismaValue.display : PrismaValue → String
  | .string s => s
  | .enum s => s
  | .boolean b => if b then "true" else "false"
  | .int n => if n < 0 then "-" ++ natToArgString n.natAbs else natToArgString n.natAbs

inductive DefaultKind where
  | VALUE (v : PrismaValue)
  | NOW
  | DBGENERATED (expr : String)
  | SEQUENCE (s : String)
deriving DecidableEq, Repr

structure DefaultValue where
  kind : DefaultKind
deriving DecidableEq, Repr

/-- `DefaultValue::db_generated`. -/
def DefaultValue.db_generated (expr : String) : DefaultValue := ⟨.DBGENERATED expr⟩

structure Column where
  name : String
  tpe : ColumnType
  is_required : Bool
  default : Option DefaultValue
  auto_increment : Bool
deriving DecidableEq, Repr

structure ForeignKey where
  constrained_columns : List String
deriving DecidableEq, Repr

structure Table where
  name : String
  columns : List Column
  foreign_keys : List ForeignKey
deriving DecidableEq, Repr

structure EnumDef where
  name : String
  values : List String
deriving DecidableEq, Repr

structure SqlSchema where
  tables : List Table
  enums : List EnumDef
deriving DecidableEq, Repr

/-- MySQL identifier quoting (`Quoted::Backticks` / `Quoted::mysql_ident`). -/
def mysqlIdent (s : String) : String := "`" ++ s ++ "`"

/-- Modelled from the spec: `Quoted::mysql_string` — a single-quoted string
literal as used for inline enum variants in a MySQL column type. -/
def mysqlString (s : String) : String := squoteStr ++ s ++ squoteStr

/-- Modelled from the spec: `SQL_INDENTATION`, the indentation prefix of a
rendered column line. -/
def SQL_INDENTATION : String := "    "

def VARCHAR_LENGTH_191 : String := "(191)"

/-- `escape_string_literal` on one character list: every single quote is
replaced by the match preceded by another quote (regex `replace_all` with
replacement quote-then-match). -/
def escapeChars : List Char → List Char
  | [] => []
  | c :: rest =>
    if c = squote then squote :: squote :: escapeChars rest
    else c :: escapeChars rest

/-- `escape_string_literal` (mysql_renderer.rs): double every single-quote. -/
def escape_string_literal (s : String) : String := String.mk (escapeChars s.data)

/-- `MysqlFlavour::render_default`. Match arms in source order; the
`unreachable!("NOW default on non-datetime column")` arm is a panic. -/
def render_default (default : DefaultValue) (family : ColumnTypeFamily) :
    Except RenderError String :=
  match default.kind, family with
  | .DBGENERATED val, _ => .ok val
  | .VALUE (.string val), .String =>
    .ok (squoteStr ++ escape_string_literal val ++ squoteStr)
  | .VALUE (.enum val), .Enum _ =>
    .ok (squoteStr ++ escape_string_literal val ++ squoteStr)
  | .NOW, .DateTime => .ok "CURRENT_TIMESTAMP(3)"
  | .NOW, _ => .error (.panicked "NOW default on non-datetime column")
  | .VALUE val, .DateTime => .ok (squoteStr ++ val.display ++ squoteStr)
  | .VALUE val, _ => .ok val.display
  | .SEQUENCE _, _ => .ok ""

/-- `render_column_type` (mysql_renderer.rs): the explicit full data type if
non-empty, else the default mapping per logical family; an enum family
renders its variants inline, panicking when the enum is missing from the
schema; Uuid and Unsupported are `unimplemented!`. -/
def render_column_type (schema : SqlSchema) (column : Column) :
    Except RenderError String :=
  if column.tpe.full_data_type ≠ "" then .ok column.tpe.full_data_type
  else
    match column.tpe.family with
    | .Boolean => .ok "BOOLEAN"
    | .DateTime => .ok "DATETIME(3)"
    | .Float => .ok "DECIMAL(65,30)"
    | .Decimal => .ok "DECIMAL(65,30)"
    | .Int => .ok "INT"
    | .BigInt => .ok "BIGINT"
    | .String => .ok ("VARCHAR" ++ VARCHAR_LENGTH_191)
    | .Enum enum_name =>
      match schema.enums.find? (fun e => e.name == enum_name) with
      | some e =>
        .ok ("ENUM(" ++ joinSep ", " (e.values.map mysqlString) ++ ")")
      | none => .error (.panicked "Could not render the variants of enum")
    | .Json => .ok "JSON"
    | .Binary => .ok "LONGBLOB"
    | .Uuid => .error (.panicked "Uuid not handled yet")
    | .Unsupported _ => .error (.panicked "Unsupported not handled yet")

/-- `render_nullability` (common.rs, modelled from the spec's "nullability
clause"): `NOT NULL` for required columns, nothing otherwise. -/
def render_nullability (column : Column) : String :=
  if column.is_required then " NOT NULL" else ""

/-- Modelled from the spec: `foreign_key_for_column` of the table walker —
the foreign key (if any) constraining the named column. -/
def foreign_key_for_column (table : Table) (name : String) : Option ForeignKey :=
  table.foreign_keys.find? (fun fk => fk.constrained_columns.contains name)

/-- The default-suppression filter inside `render_column`: drop
database-generated and sequence defaults, and any default on a JSON- or
binary-family column. -/
def renderableDefault (column : Column) (default : DefaultValue) : Bool :=
  !(match default.kind with
    | .DBGENERATED _ => true
    | .SEQUENCE _ => true
    | _ => false) &&
  !(match column.tpe.family with | .Json => true | _ => false) &&
  !(match column.tpe.family with | .Binary => true | _ => false)

/-- `MysqlFlavour::render_column`. -/
def render_column (schema : SqlSchema) (table : Table) (column : Column) :
    Except RenderError String := do
  let column_name := mysqlIdent column.name
  let tpe_str ← render_column_type schema column
  let nullability_str := render_nullability column
  let default_str ←
    match column.default.filter (renderableDefault column) with
    | some default => do
      let rendered ← render_default default column.tpe.family
      pure (" DEFAULT " ++ rendered)
    | none => pure ""
  let auto_increment_str := if column.auto_increment then " AUTO_INCREMENT" else ""
  match foreign_key_for_column table column.name with
  | some _ =>
    pure (SQL_INDENTATION ++ column_name ++ " " ++ tpe_str ++ nullability_str ++
      default_str)
  | none =>
    pure (SQL_INDENTATION ++ column_name ++ " " ++ tpe_str ++ nullability_str ++
      default_str ++ auto_increment_str)

/-! #### Indexes -/

/-- The data of an index walker: name, owning table, column names,
uniqueness. -/
structure IndexData where
  name : String
  table : String
  columns : List String
  is_unique : Bool
deriving DecidableEq, Repr

/-- Modelled from the spec: `MYSQL_IDENTIFIER_SIZE_LIMIT`, MySQL's maximum
identifier length (the flavour constant is outside the shown source). -/
def MYSQL_IDENTIFIER_SIZE_LIMIT : Nat := 64

/-- Modelled from the spec: `sql_ddl::mysql::CreateIndex` — typed CREATE
INDEX statement (the mysql DDL builder file is outside the shown source; its
postgres analogue is shown). -/
structure MysqlCreateIndex where
  unique : Bool
  index_name : String
  on_ref : String × List String
deriving DecidableEq, Repr

def MysqlCreateIndex.render (c : MysqlCreateIndex) : String :=
  "CREATE " ++ (if c.unique then "UNIQUE " else "") ++ "INDEX " ++
    mysqlIdent c.index_name ++ " ON " ++ mysqlIdent c.on_ref.1 ++ "(" ++
    joinSep ", " (c.on_ref.2.map mysqlIdent) ++ ")"

/-- Modelled from the spec: `sql_ddl::mysql::DropIndex`. -/
structure MysqlDropIndex where
  index_name : String
  table_name : String
deriving DecidableEq, Repr

def MysqlDropIndex.render (d : MysqlDropIndex) : String :=
  "DROP INDEX " ++ mysqlIdent d.index_name ++ " ON " ++ mysqlIdent d.table_name

/-- The `ddl::CreateIndex` value built by `render_create_index`: the index
name is truncated to `MYSQL_IDENTIFIER_SIZE_LIMIT` when longer. -/
def render_create_index_object (index : IndexData) : MysqlCreateIndex :=
  let name := index.name
  let name :=
    if name.length > MYSQL_IDENTIFIER_SIZE_LIMIT then
      name.take MYSQL_IDENTIFIER_SIZE_LIMIT
    else name
  { unique := index.is_unique, index_name := name,
    on_ref := (index.table, index.columns) }

/-- `MysqlFlavour::render_create_index`. -/
def render_create_index (index : IndexData) : String :=
  (render_create_index_object index).render

/-- The `DropIndex` value built by `render_drop_index`: the name is NOT
truncated. -/
def render_drop_index_object (index : IndexData) : MysqlDropIndex :=
  { table_name := index.table, index_name := index.name }

/-- `MysqlFlavour::render_drop_index`. -/
def render_drop_index (index : IndexData) : String :=
  (render_drop_index_object index).render

/-- `MysqlFlavour::render_drop_and_recreate_index`: create the next index
first, then drop the previous one. -/
def render_drop_and_recreate_index (indexes : Pair IndexData) : List String :=
  [render_create_index indexes.next,
   (MysqlDropIndex.mk indexes.previous.name indexes.previous.table).render]

/-! #### Alter table (`render_alter_table` and its helpers) -/

/-- Modelled from the spec: the Column Change Descriptor — "a bitset-like
record over { type changed, default changed, nullability changed, renamed,
autoincrement changed, sequence changed }". -/
structure ColumnChanges where
  type_changed : Bool
  default_changed : Bool
  nullability_changed : Bool
  renamed : Bool
  autoincrement_changed : Bool
  sequence_changed : Bool
deriving DecidableEq, Repr

/-- Modelled from the spec: "queries like " only default changed"  must be
derivable purely from the flags". -/
def ColumnChanges.only_default_changed (c : ColumnChanges) : Bool :=
  c.default_changed && !c.type_changed && !c.nullability_changed &&
    !c.renamed && !c.autoincrement_changed && !c.sequence_changed

def ColumnChanges.column_was_renamed (c : ColumnChanges) : Bool := c.renamed

/-- `sql_migration::TableChange` (payload indexes into the snapshot's column
lists, as in `AddColumn` / `DropColumn` / `AlterColumn`). -/
inductive TableChange where
  | DropPrimaryKey
  | AddPrimaryKey (columns : List String)
  | AddColumn (column_index : Nat)
  | DropColumn (index : Nat)
  | AlterColumn (column_index : Nat) (changes : ColumnChanges)
  | DropAndRecreateColumn (column_index : Nat)
deriving DecidableEq, Repr

structure AlterTable where
  table_index : Pair Nat
  changes : List TableChange
deriving DecidableEq, Repr

/-- `MysqlAlterColumn` (mysql_renderer.rs): either drop the default, or a
full MODIFY clause. -/
inductive MysqlAlterColumn where
  | DropDefault
  | Modify (new_default : Option DefaultValue) (changes : ColumnChanges)
deriving DecidableEq, Repr

/-- `MysqlAlterColumn::new`: DropDefault when only the default changed and
the next column has none; renaming is `unreachable!`; otherwise Modify,
carrying the previous DBGENERATED expression over when the next one is
empty. -/
def MysqlAlterColumn.new (columns : Pair Column) (changes : ColumnChanges) :
    Except RenderError MysqlAlterColumn :=
  if changes.only_default_changed && columns.next.default.isNone then
    .ok .DropDefault
  else if changes.column_was_renamed then
    .error (.panicked "MySQL column renaming")
  else
    let new_default : Option DefaultValue :=
      match columns.previous.default, columns.next.default with
      | some dp, some dn =>
        match dp.kind, dn.kind with
        | .DBGENERATED previous, .DBGENERATED next =>
          if next = "" && previous ≠ "" then
            some (DefaultValue.db_generated previous)
          else columns.next.default
        | _, _ => columns.next.default
      | _, _ => columns.next.default
    .ok (.Modify new_default changes)

/-- Does `hay` contain `needle` as a substring (Rust `str::contains`)? -/
def strContainsSubstr (hay needle : String) : Bool :=
  decide (needle.data <:+: hay.data)

/-- `render_mysql_modify` (mysql_renderer.rs). -/
def render_mysql_modify (schema : SqlSchema) (changes : ColumnChanges)
    (new_default : Option DefaultValue) (next_column : Column) :
    Except RenderError String := do
  let column_type_opt : Option String :=
    if changes.type_changed then
      (some next_column.tpe.full_data_type).filter
        (fun r => !(r = "") || strContainsSubstr r "datetime")
    else
      (some next_column.tpe.full_data_type).filter (fun r => !(r = ""))
  let column_type ←
    match column_type_opt with
    | some t => pure t
    | none => render_column_type schema next_column
  let default ←
    match new_default with
    | some d => do
      let expr ← render_default d next_column.tpe.family
      pure (if expr = "" then "" else " DEFAULT " ++ expr)
    | none => pure ""
  pure ("MODIFY " ++ mysqlIdent next_column.name ++ " " ++ column_type ++
    (if next_column.is_required then " NOT NULL" else "") ++ default ++
    (if next_column.auto_increment then " AUTO_INCREMENT" else ""))

/-- `column_at` of a table walker: panics when the index is out of range. -/
def column_at (table : Table) (i : Nat) : Except RenderError Column :=
  match table.columns.get? i with
  | some c => .ok c
  | none => .error (.panicked "column_at out of range")

/-- `schemas.tables(table_index)`: the previous/next table pair addressed by
an `AlterTable` step (indexing panics when out of range). -/
def schemasTables (schemas : Pair SqlSchema) (ti : Pair Nat) :
    Except RenderError (Pair Table) :=
  match schemas.previous.tables.get? ti.previous,
      schemas.next.tables.get? ti.next with
  | some p, some n => .ok ⟨p, n⟩
  | _, _ => .error (.panicked "table index out of range")

/-- One clause of `render_alter_table`, for one `TableChange` (the loop
body; clause texts of `sql_ddl::mysql::AlterTableClause` are modelled from
the spec since that file is outside the shown source). Every change yields
exactly one clause; `DropAndRecreateColumn` is `unreachable!` on MySQL. -/
def renderTableChange (schemas : Pair SqlSchema) (tables : Pair Table) :
    TableChange → Except RenderError String
  | .DropPrimaryKey => .ok "DROP PRIMARY KEY"
  | .AddPrimaryKey columns =>
    .ok ("ADD PRIMARY KEY (" ++ joinSep ", " (columns.map mysqlIdent) ++ ")")
  | .AddColumn column_index => do
    let column ← column_at tables.next column_index
    let col_sql ← render_column schemas.next tables.next column
    pure ("ADD COLUMN " ++ col_sql)
  | .DropColumn index => do
    let column ← column_at tables.previous index
    pure ("DROP COLUMN " ++ mysqlIdent column.name)
  | .AlterColumn column_index changes => do
    let prevCol ← column_at tables.previous column_index
    let nextCol ← column_at tables.next column_index
    let expanded ← MysqlAlterColumn.new ⟨prevCol, nextCol⟩ changes
    match expanded with
    | .DropDefault =>
      pure ("ALTER COLUMN " ++ mysqlIdent prevCol.name ++ " DROP DEFAULT")
    | .Modify nd ch => render_mysql_modify schemas.next ch nd nextCol
  | .DropAndRecreateColumn _ =>
    .error (.panicked "DropAndRecreateColumn on MySQL")

/-- The `for change in changes` loop of `render_alter_table`: pushes one
clause line per change, aborting at the first panic. -/
def renderChangeLines (schemas : Pair SqlSchema) (tables : Pair Table) :
    List TableChange → Except RenderError (List String)
  | [] => .ok []
  | c :: rest =>
    match renderTableChange schemas tables c with
    | .error e => .error e
    | .ok line =>
      match renderChangeLines schemas tables rest with
      | .error e => .error e
      | .ok lines => .ok (line :: lines)

/-- `MysqlFlavour::render_alter_table`: one clause per change, newline-joined
into a single ALTER TABLE statement; no statement at all when there are no
clauses. -/
def render_alter_table (alter_table : AlterTable) (schemas : Pair SqlSchema) :
    Except RenderError (List String) :=
  match schemasTables schemas alter_table.table_index with
  | .error e => .error e
  | .ok tables =>
    match renderChangeLines schemas tables alter_table.changes with
    | .error e => .error e
    | .ok lines =>
      if lines.isEmpty then .ok []
      else
        .ok ["ALTER TABLE " ++ mysqlIdent tables.previous.name ++ " " ++
          joinSep ",\n    " lines]

/-! ### Auxiliary predicates used by the theorems -/

/-- The decoded variants whose constructor names form the large-object set
(text and blob families). -/
def isLargeObjectVariant : MySqlType → Bool
  | .Text => true
  | .TinyText => true
  | .MediumText => true
  | .LongText => true
  | .Blob => true
  | .TinyBlob => true
  | .MediumBlob => true
  | .LongBlob => true
  | _ => false

/-- Undo quote doubling: collapses every doubled single-quote into one. -/
def unescapeChars : List Char → List Char
  | [] => []
  | [c] => [c]
  | a :: b :: rest =>
    if a = squote && b = squote then a :: unescapeChars rest
    else a :: unescapeChars (b :: rest)

/-! ## Supporting lemmas -/

lemma decDigitChar_toNat (d : Nat) (h : d < 10) : (decDigitChar d).toNat = 48 + d := by
  interval_cases d <;> decide

lemma isDecDigit_decDigitChar (d : Nat) (h : d < 10) : isDecDigit (decDigitChar d) = true := by
  interval_cases d <;> decide

lemma decDigits_ne_nil (n : Nat) : decDigits n ≠ [] := by
  rw [decDigits]
  split <;> simp

lemma decDigits_all_digits (n : Nat) : (decDigits n).all isDecDigit = true := by
  induction n using Nat.strong_induction_on with
  | _ n ih =>
    rw [decDigits]
    split
    · next h => simp [isDecDigit_decDigitChar n h]
    · next h =>
      rw [List.all_append]
      have h1 := ih (n / 10) (Nat.div_lt_self (by omega) (by omega))
      have h2 := isDecDigit_decDigitChar (n % 10) (Nat.mod_lt _ (by omega))
      simp [h1, h2]

lemma decDigits_foldl (n : Nat) : ∀ acc : Nat,
    (decDigits n).foldl decStep acc = acc * 10 ^ (decDigits n).length + n := by
  induction n using Nat.strong_induction_on with
  | _ n ih =>
    intro acc
    rw [decDigits]
    split
    · next h =>
      simp only [List.foldl, decStep, List.length_singleton, pow_one,
        decDigitChar_toNat n h]
      omega
    · next h =>
      rw [List.foldl_append]
      rw [ih (n / 10) (Nat.div_lt_self (by omega) (by omega)) acc]
      simp only [List.foldl, decStep, List.length_append, List.length_singleton]
      rw [decDigitChar_toNat (n % 10) (Nat.mod_lt _ (by omega))]
      rw [pow_succ, ← mul_assoc]
      have hd : 48 + n % 10 - 48 = n % 10 := by omega
      rw [hd]
      generalize acc * 10 ^ (decDigits (n / 10)).length = M
      omega

/-- Round trip: parsing the decimal rendering of `n` gives back `n`. -/
lemma parseU32_natToArgString (n : Nat) : parseU32 (natToArgString n) = some n := by
  unfold parseU32 natToArgString
  obtain ⟨c, cs, hcons⟩ := List.exists_cons_of_ne_nil (decDigits_ne_nil n)
  have hdata : (String.mk (decDigits n)).data = decDigits n := rfl
  rw [hdata, hcons]
  have hall : (decDigits n).all isDecDigit = true := decDigits_all_digits n
  rw [hcons] at hall
  have hfold : (decDigits n).foldl decStep 0 = n := by
    have := decDigits_foldl n 0
    simpa using this
  rw [hcons] at hfold
  simp [hall, hfold]

lemma parse_one_u32_arg (x : Nat) (tn : String) :
    parse_one_u32 [natToArgString x] tn = .ok x := by
  simp [parse_one_u32, parseU32_natToArgString]

lemma parse_one_opt_u32_arg (x : Nat) (tn : String) :
    parse_one_opt_u32 [natToArgString x] tn = .ok (some x) := by
  simp [parse_one_opt_u32, parseU32_natToArgString]

lemma parse_two_opt_u32_args (a b : Nat) (tn : String) :
    parse_two_opt_u32 [natToArgString a, natToArgString b] tn = .ok (some (a, b)) := by
  simp [parse_two_opt_u32, parseU32_natToArgString]

/-- C1: for every MySQL native-type value `v`, introspection succeeds and
yields a constructor name and literal argument list from which
`parse_native_type` reconstructs exactly the same native type instance
(same name, same args, same decoded variant) — parse and introspect are
inverses. -/
theorem parse_introspect_inverses (v : MySqlType) :
    ∃ inst, introspect_native_type v = .ok inst ∧
      parse_native_type inst.name inst.args = .ok inst := by
  cases v <;> try exact ⟨_, rfl, rfl⟩
  case Decimal x =>
    cases x with
    | none => exact ⟨_, rfl, rfl⟩
    | some p =>
      obtain ⟨a, b⟩ := p
      refine ⟨_, rfl, ?_⟩
      simp [parse_native_type, args_vec_from_opt, parse_two_opt_u32_args,
        NativeTypeInstance.new, DECIMAL_TYPE_NAME, introspectNameArgs,
        NativeTypeConstructor.with_optional_args]
  case Numeric x =>
    cases x with
    | none => exact ⟨_, rfl, rfl⟩
    | some p =>
      obtain ⟨a, b⟩ := p
      refine ⟨_, rfl, ?_⟩
      simp [parse_native_type, args_vec_from_opt, parse_two_opt_u32_args,
        NativeTypeInstance.new, NUMERIC_TYPE_NAME, introspectNameArgs,
        NativeTypeConstructor.with_optional_args]
  case Bit m =>
    refine ⟨_, rfl, ?_⟩
    simp [parse_native_type, parse_one_u32_arg, NativeTypeInstance.new,
      BIT_TYPE_NAME, introspectNameArgs, NativeTypeConstructor.with_args]
  case Char m =>
    refine ⟨_, rfl, ?_⟩
    simp [parse_native_type, parse_one_u32_arg, NativeTypeInstance.new,
      CHAR_TYPE_NAME, introspectNameArgs, NativeTypeConstructor.with_args]
  case VarChar m =>
    refine ⟨_, rfl, ?_⟩
    simp [parse_native_type, parse_one_u32_arg, NativeTypeInstance.new,
      VAR_CHAR_TYPE_NAME, introspectNameArgs, NativeTypeConstructor.with_args]
  case Binary m =>
    refine ⟨_, rfl, ?_⟩
    simp [parse_native_type, parse_one_u32_arg, NativeTypeInstance.new,
      BINARY_TYPE_NAME, introspectNameArgs, NativeTypeConstructor.with_args]
  case VarBinary m =>
    refine ⟨_, rfl, ?_⟩
    simp [parse_native_type, parse_one_u32_arg, NativeTypeInstance.new,
      VAR_BINARY_TYPE_NAME, introspectNameArgs, NativeTypeConstructor.with_args]
  case Time x =>
    cases x with
    | none => exact ⟨_, rfl, rfl⟩
    | some y =>
      refine ⟨_, rfl, ?_⟩
      simp [parse_native_type, arg_vec_from_opt, parse_one_opt_u32_arg,
        NativeTypeInstance.new, TIME_TYPE_NAME, introspectNameArgs,
        NativeTypeConstructor.with_optional_args]
  case DateTime x =>
    cases x with
    | none => exact ⟨_, rfl, rfl⟩
    | some y =>
      refine ⟨_, rfl, ?_⟩
      simp [parse_native_type, arg_vec_from_opt, parse_one_opt_u32_arg,
        NativeTypeInstance.new, DATETIME_TYPE_NAME, introspectNameArgs,
        NativeTypeConstructor.with_optional_args]
  case Timestamp x =>
    cases x with
    | none => exact ⟨_, rfl, rfl⟩
    | some y =>
      refine ⟨_, rfl, ?_⟩
      simp [parse_native_type, arg_vec_from_opt, parse_one_opt_u32_arg,
        NativeTypeInstance.new, TIMESTAMP_TYPE_NAME, introspectNameArgs,
        NativeTypeConstructor.with_optional_args]

/-- C4 counterexample: the claim says supplying arguments to an
argument-less constructor such as `Int` fails with `ArgumentCountMismatch`,
but `parse_native_type` never consults the argument list for argument-less
constructors: `Int` with one argument parses successfully (and even keeps
the spurious argument in the instance). -/
theorem parse_native_type_argless_counterexample :
    parse_native_type "Int" ["5"] =
      .ok (NativeTypeInstance.new "Int" ["5"] MySqlType.Int) := rfl

/-- C4 (amended): only the constructors that declare arguments enforce their
arity: `Bit`, `Char`, `VarChar`, `Binary` and `VarBinary` (exactly one
argument) reject any other argument count with `ArgumentCountMismatch`;
`Decimal` and `Numeric` (two optional) reject any count other than 0 or 2;
`Time`, `Datetime` and `Timestamp` (one optional) reject more than one;
argument-less constructors such as `Int` and `Text` accept any argument
list unchecked. -/
theorem parse_native_type_arity (args : List String) :
    parse_native_type "Int" args =
      .ok (NativeTypeInstance.new "Int" args MySqlType.Int) ∧
    parse_native_type "Text" args =
      .ok (NativeTypeInstance.new "Text" args MySqlType.Text) ∧
    (args.length ≠ 1 →
      parse_native_type "Bit" args = .error (.argumentCountMismatch "Bit")) ∧
    (args.length ≠ 1 →
      parse_native_type "Char" args = .error (.argumentCountMismatch "Char")) ∧
    (args.length ≠ 1 →
      parse_native_type "VarChar" args =
        .error (.argumentCountMismatch "VarChar")) ∧
    (args.length ≠ 1 →
      parse_native_type "Binary" args =
        .error (.argumentCountMismatch "Binary")) ∧
    (args.length ≠ 1 →
      parse_native_type "VarBinary" args =
        .error (.argumentCountMismatch "VarBinary")) ∧
    (args.length ≠ 0 → args.length ≠ 2 →
      parse_native_type "Decimal" args =
        .error (.argumentCountMismatch "Decimal")) ∧
    (args.length ≠ 0 → args.length ≠ 2 →
      parse_native_type "Numeric" args =
        .error (.argumentCountMismatch "Numeric")) ∧
    (1 < args.length →
      parse_native_type "Time" args = .error (.argumentCountMismatch "Time")) ∧
    (1 < args.length →
      parse_native_type "Datetime" args =
        .error (.argumentCountMismatch "Datetime")) ∧
    (1 < args.length →
      parse_native_type "Timestamp" args =
        .error (.argumentCountMismatch "Timestamp")) := by
  refine ⟨rfl, rfl, ?_, ?_, ?_, ?_, ?_, ?_, ?_, ?_, ?_, ?_⟩
  · intro h
    match args with
    | [] => rfl
    | [x] => simp at h
    | x :: y :: rest => rfl
  · intro h
    match args with
    | [] => rfl
    | [x] => simp at h
    | x :: y :: rest => rfl
  · intro h
    match args with
    | [] => rfl
    | [x] => simp at h
    | x :: y :: rest => rfl
  · intro h
    match args with
    | [] => rfl
    | [x] => simp at h
    | x :: y :: rest => rfl
  · intro h
    match args with
    | [] => rfl
    | [x] => simp at h
    | x :: y :: rest => rfl
  · intro h0 h2
    match args with
    | [] => simp at h0
    | [x] => rfl
    | [x, y] => simp at h2
    | x :: y :: z :: rest => rfl
  · intro h0 h2
    match args with
    | [] => simp at h0
    | [x] => rfl
    | [x, y] => simp at h2
    | x :: y :: z :: rest => rfl
  · intro h
    match args with
    | [] => simp at h
    | [x] => simp at h
    | x :: y :: rest => rfl
  · intro h
    match args with
    | [] => simp at h
    | [x] => simp at h
    | x :: y :: rest => rfl
  · intro h
    match args with
    | [] => simp at h
    | [x] => simp at h
    | x :: y :: rest => rfl

/-- C4 witness: the arity theorem applied at the concrete argument list
`["1", "2", "3"]`, exercising every argument-count hypothesis. -/
theorem parse_native_type_arity_witness :
    parse_native_type "Bit" ["1", "2", "3"] =
      .error (.argumentCountMismatch "Bit") ∧
    parse_native_type "Char" ["1", "2", "3"] =
      .error (.argumentCountMismatch "Char") ∧
    parse_native_type "VarChar" ["1", "2", "3"] =
      .error (.argumentCountMismatch "VarChar") ∧
    parse_native_type "Binary" ["1", "2", "3"] =
      .error (.argumentCountMismatch "Binary") ∧
    parse_native_type "VarBinary" ["1", "2", "3"] =
      .error (.argumentCountMismatch "VarBinary") ∧
    parse_native_type "Decimal" ["1", "2", "3"] =
      .error (.argumentCountMismatch "Decimal") ∧
    parse_native_type "Numeric" ["1", "2", "3"] =
      .error (.argumentCountMismatch "Numeric") ∧
    parse_native_type "Time" ["1", "2", "3"] =
      .error (.argumentCountMismatch "Time") ∧
    parse_native_type "Datetime" ["1", "2", "3"] =
      .error (.argumentCountMismatch "Datetime") ∧
    parse_native_type "Timestamp" ["1", "2", "3"] =
      .error (.argumentCountMismatch "Timestamp") :=
  ⟨(parse_native_type_arity ["1", "2", "3"]).2.2.1 (by decide),
   (parse_native_type_arity ["1", "2", "3"]).2.2.2.1 (by decide),
   (parse_native_type_arity ["1", "2", "3"]).2.2.2.2.1 (by decide),
   (parse_native_type_arity ["1", "2", "3"]).2.2.2.2.2.1 (by decide),
   (parse_native_type_arity ["1", "2", "3"]).2.2.2.2.2.2.1 (by decide),
   (parse_native_type_arity ["1", "2", "3"]).2.2.2.2.2.2.2.1 (by decide) (by decide),
   (parse_native_type_arity ["1", "2", "3"]).2.2.2.2.2.2.2.2.1 (by decide) (by decide),
   (parse_native_type_arity ["1", "2", "3"]).2.2.2.2.2.2.2.2.2.1 (by decide),
   (parse_native_type_arity ["1", "2", "3"]).2.2.2.2.2.2.2.2.2.2.1 (by decide),
   (parse_native_type_arity ["1", "2", "3"]).2.2.2.2.2.2.2.2.2.2.2 (by decide)⟩

/-- C2 counterexample: the claim says a Decimal precision outside 1–65
fails validation, but `validate_field` only rejects `precision > 65`:
a field of native type `Decimal(0, 0)` (precision 0) validates
successfully. -/
theorem validate_field_precision_zero_counterexample :
    validate_field
      { name := "f",
        field_type := FieldType.nativeType ScalarType.Decimal
          (NativeTypeInstance.new "Decimal" [natToArgString 0, natToArgString 0]
            (MySqlType.Decimal (some (0, 0)))),
        is_unique := false, is_id := false } = .ok () := rfl

/-- C2 (amended): for a Decimal or Numeric field with explicit
`(precision, scale)`, `validate_field` succeeds iff `scale ≤ precision`,
`precision ≤ 65` and `scale ≤ 30` (a precision of 0 is NOT rejected);
Bit length must satisfy `1 ≤ m ≤ 64`; Char length `m ≤ 255`; VarChar
length `m ≤ 65535`; all in-range values succeed. -/
theorem validate_field_bounds (p q m : Nat) :
    (validate_field
      { name := "f",
        field_type := FieldType.nativeType ScalarType.Decimal
          (NativeTypeInstance.new "Decimal" (args_vec_from_opt (some (p, q)))
            (MySqlType.Decimal (some (p, q)))),
        is_unique := false, is_id := false } = .ok () ↔
      (q ≤ p ∧ p ≤ 65 ∧ q ≤ 30)) ∧
    (validate_field
      { name := "f",
        field_type := FieldType.nativeType ScalarType.Decimal
          (NativeTypeInstance.new "Numeric" (args_vec_from_opt (some (p, q)))
            (MySqlType.Numeric (some (p, q)))),
        is_unique := false, is_id := false } = .ok () ↔
      (q ≤ p ∧ p ≤ 65 ∧ q ≤ 30)) ∧
    (validate_field
      { name := "f",
        field_type := FieldType.nativeType ScalarType.Bytes
          (NativeTypeInstance.new "Bit" [natToArgString m] (MySqlType.Bit m)),
        is_unique := false, is_id := false } = .ok () ↔
      (1 ≤ m ∧ m ≤ 64)) ∧
    (validate_field
      { name := "f",
        field_type := FieldType.nativeType ScalarType.String
          (NativeTypeInstance.new "Char" [natToArgString m] (MySqlType.Char m)),
        is_unique := false, is_id := false } = .ok () ↔ m ≤ 255) ∧
    (validate_field
      { name := "f",
        field_type := FieldType.nativeType ScalarType.String
          (NativeTypeInstance.new "VarChar" [natToArgString m] (MySqlType.VarChar m)),
        is_unique := false, is_id := false } = .ok () ↔ m ≤ 65535) := by
  refine ⟨?_, ?_, ?_, ?_, ?_⟩ <;>
    (simp [validate_field, NativeTypeInstance.new,
      NATIVE_TYPES_THAT_CAN_NOT_BE_USED_IN_KEY_SPECIFICATION]
     split_ifs <;> simp_all <;> omega)

lemma checkIndexFields_ok_mem (model : Model) (tpe : IndexType) :
    ∀ l : List String, checkIndexFields model tpe l = .ok () →
      ∀ f ∈ l, checkIndexField model tpe f = .ok () := by
  intro l
  induction l with
  | nil => intro _ f hf; simp at hf
  | cons a rest ih =>
    intro h f hf
    cases hc : checkIndexField model tpe a with
    | error e => simp [checkIndexFields, hc] at h
    | ok x =>
      cases x
      have hrest : checkIndexFields model tpe rest = .ok () := by
        simpa [checkIndexFields, hc] using h
      rcases List.mem_cons.mp hf with rfl | hmem
      · exact hc
      · exact ih hrest f hmem

lemma checkIndices_ok_mem (model : Model) :
    ∀ l : List IndexDefinition, checkIndices model l = .ok () →
      ∀ idx ∈ l, checkIndexFields model idx.tpe idx.fields = .ok () := by
  intro l
  induction l with
  | nil => intro _ idx hidx; simp at hidx
  | cons a rest ih =>
    intro h idx hidx
    cases hc : checkIndexFields model a.tpe a.fields with
    | error e => simp [checkIndices, hc] at h
    | ok x =>
      cases x
      have hrest : checkIndices model rest = .ok () := by
        simpa [checkIndices, hc] using h
      rcases List.mem_cons.mp hidx with rfl | hmem
      · exact hc
      · exact ih hrest idx hmem

lemma checkIdFields_ok_mem (model : Model) :
    ∀ l : List String, checkIdFields model l = .ok () →
      ∀ f ∈ l, checkIdField model f = .ok () := by
  intro l
  induction l with
  | nil => intro _ f hf; simp at hf
  | cons a rest ih =>
    intro h f hf
    cases hc : checkIdField model a with
    | error e => simp [checkIdFields, hc] at h
    | ok x =>
      cases x
      have hrest : checkIdFields model rest = .ok () := by
        simpa [checkIdFields, hc] using h
      rcases List.mem_cons.mp hf with rfl | hmem
      · exact hc
      · exact ih hrest f hmem

/-- C3: for a field whose native type instance carries a large-object name
(text/blob family), `validate_field` fails with incompatible-with-unique
when the field is unique, incompatible-with-id when it is an id field, and
succeeds with no markers; `validate_model` fails with
incompatible-with-unique for a unique index over such a field,
incompatible-with-index for a non-unique index, incompatible-with-id for an
id field, succeeds when the field is referenced by no index or id set, and
never succeeds for any model whose index or id-field set references such a
field. -/
theorem validate_large_object_keys
    (t : ScalarType) (nti : NativeTypeInstance) (u i : Bool) (fname : String)
    (tpe : IndexType)
    (hname : NATIVE_TYPES_THAT_CAN_NOT_BE_USED_IN_KEY_SPECIFICATION.contains
      nti.name = true)
    (hvar : isLargeObjectVariant nti.native = true) :
    (validate_field ⟨fname, .nativeType t nti, u, i⟩ =
      if u then .error (.incompatibleWithUnique nti.name "MySQL")
      else if i then .error (.incompatibleWithId nti.name "MySQL")
      else .ok ()) ∧
    (validate_model ⟨[⟨fname, .nativeType t nti, u, i⟩], [⟨[fname], tpe⟩], []⟩ =
      .error (if tpe = IndexType.Unique
        then .incompatibleWithUnique nti.name "MySQL"
        else .incompatibleWithIndex nti.name "MySQL")) ∧
    (validate_model ⟨[⟨fname, .nativeType t nti, u, i⟩], [], [fname]⟩ =
      .error (.incompatibleWithId nti.name "MySQL")) ∧
    (validate_model ⟨[⟨fname, .nativeType t nti, u, i⟩], [], []⟩ = .ok ()) ∧
    (∀ (model : Model) (idx : IndexDefinition) (f : Field),
      idx ∈ model.indices → fname ∈ idx.fields →
      find_field model fname = some f → f.field_type = .nativeType t nti →
      validate_model model ≠ .ok ()) ∧
    (∀ (model : Model) (f : Field),
      fname ∈ model.id_fields → find_field model fname = some f →
      f.field_type = .nativeType t nti →
      validate_model model ≠ .ok ()) := by
  have hmem : nti.name ∈ NATIVE_TYPES_THAT_CAN_NOT_BE_USED_IN_KEY_SPECIFICATION := by
    simpa using hname
  refine ⟨?_, ?_, ?_, ?_, ?_, ?_⟩
  · cases hnat : nti.native <;> rw [hnat] at hvar <;>
      simp [isLargeObjectVariant] at hvar <;>
      cases u <;> cases i <;> simp [validate_field, hnat, hmem]
  · cases tpe <;>
      simp [validate_model, checkIndices, checkIndexFields, checkIndexField,
        checkIdFields, find_field, hmem]
  · simp [validate_model, checkIndices, checkIndexFields, checkIndexField,
      checkIdFields, checkIdField, find_field, hmem]
  · rfl
  · intro model idx f hidx hf hfind hft hok
    cases hci : checkIndices model model.indices with
    | error e => simp [validate_model, hci] at hok
    | ok x =>
      cases x
      have h1 := checkIndices_ok_mem model model.indices hci idx hidx
      have h2 := checkIndexFields_ok_mem model idx.tpe idx.fields h1 fname hf
      simp only [checkIndexField, hfind, hft, hname] at h2
      rcases em (idx.tpe = IndexType.Unique) with h | h <;> simp [h] at h2
  · intro model f hid hfind hft hok
    cases hci : checkIndices model model.indices with
    | error e => simp [validate_model, hci] at hok
    | ok x =>
      cases x
      have hidf : checkIdFields model model.id_fields = .ok () := by
        simpa [validate_model, hci] using hok
      have h2 := checkIdFields_ok_mem model model.id_fields hidf fname hid
      simp [checkIdField, hfind, hft, hname, hmem] at h2

/-- C3 witness: the large-object theorem applied at native type `Text` —
a unique field fails with incompatible-with-unique, and a model with a
non-unique index over such a field fails with incompatible-with-index. -/
theorem validate_large_object_keys_witness :
    validate_field ⟨"f", .nativeType .String (NativeTypeInstance.new "Text" []
      MySqlType.Text), true, false⟩ =
      .error (.incompatibleWithUnique "Text" "MySQL") ∧
    validate_model ⟨[⟨"f", .nativeType .String (NativeTypeInstance.new "Text" []
      MySqlType.Text), false, false⟩], [⟨["f"], .Normal⟩], []⟩ =
      .error (.incompatibleWithIndex "Text" "MySQL") := by
  have h1 := validate_large_object_keys .String
    (NativeTypeInstance.new "Text" [] MySqlType.Text) true false "f" .Normal
    (by decide) (by decide)
  have h2 := validate_large_object_keys .String
    (NativeTypeInstance.new "Text" [] MySqlType.Text) false false "f" .Normal
    (by decide) (by decide)
  exact ⟨by simpa using h1.1, by simpa using h2.2.1⟩

/-- C5: `markMigrationRolledBack` fails with the
cannot-roll-back-unapplied-migration error when no history record carries
the requested name; fails with the cannot-roll-back-succeeded-migration
error when every record with that name has a finish time; and otherwise
succeeds, calling `mark_migration_rolled_back_by_id` exactly once for each
record with that name whose `finished_at` and `rolled_back_at` are both
absent, in listed order, and for no other record. -/
theorem mark_migration_rolled_back_spec (name : String)
    (migs : List MigrationRecord) :
    (migs.filter (fun m => m.migration_name == name) = [] →
      mark_migration_rolled_back name migs =
        .error (.cannotRollBackUnappliedMigration name)) ∧
    (migs.filter (fun m => m.migration_name == name) ≠ [] →
      (∀ m ∈ migs.filter (fun m => m.migration_name == name),
        m.finished_at.isSome = true) →
      mark_migration_rolled_back name migs =
        .error (.cannotRollBackSucceededMigration name)) ∧
    (∀ m0 ∈ migs.filter (fun m => m.migration_name == name),
      m0.finished_at = none →
      mark_migration_rolled_back name migs =
        .ok (((migs.filter (fun m => m.migration_name == name)).filter
          (fun m => m.finished_at.isNone && m.rolled_back_at.isNone)).map
            (fun m => m.id))) := by
  refine ⟨?_, ?_, ?_⟩
  · intro h
    simp [mark_migration_rolled_back, h]
  · intro hne hall
    have h1 : (migs.filter (fun m => m.migration_name == name)).isEmpty = false := by
      cases hL : migs.filter (fun m => m.migration_name == name) with
      | nil => exact absurd hL hne
      | cons a t => rfl
    have h2 : (migs.filter (fun m => m.migration_name == name)).all
        (fun m => m.finished_at.isSome) = true := by
      rw [List.all_eq_true]
      intro x hx
      exact hall x hx
    simp only [mark_migration_rolled_back]
    rw [if_neg (by simp [h1]), if_pos h2]
  · intro m0 hm0 hfin
    have hne := List.ne_nil_of_mem hm0
    have h1 : (migs.filter (fun m => m.migration_name == name)).isEmpty = false := by
      cases hL : migs.filter (fun m => m.migration_name == name) with
      | nil => exact absurd hL hne
      | cons a t => rfl
    have h2 : ¬((migs.filter (fun m => m.migration_name == name)).all
        (fun m => m.finished_at.isSome) = true) := by
      rw [List.all_eq_true]
      intro hall
      have := hall m0 hm0
      simp [hfin] at this
    simp only [mark_migration_rolled_back]
    rw [if_neg (by simp [h1]), if_neg h2]

/-- C5 witness: one unfinished record is marked, a missing name and an
all-finished name produce the two errors. -/
theorem mark_migration_rolled_back_spec_witness :
    mark_migration_rolled_back "m" [⟨"id1", "m", none, none⟩] = .ok ["id1"] ∧
    mark_migration_rolled_back "m" [] =
      .error (.cannotRollBackUnappliedMigration "m") ∧
    mark_migration_rolled_back "m" [⟨"id1", "m", some 1, none⟩] =
      .error (.cannotRollBackSucceededMigration "m") := by
  refine ⟨?_, ?_, ?_⟩
  · have h := (mark_migration_rolled_back_spec "m" [⟨"id1", "m", none, none⟩]).2.2
      ⟨"id1", "m", none, none⟩ (by decide) rfl
    simpa using h
  · exact (mark_migration_rolled_back_spec "m" []).1 rfl
  · have h := (mark_migration_rolled_back_spec "m" [⟨"id1", "m", some 1, none⟩]).2.1
      (by decide) (by decide)
    exact h

set_option maxRecDepth 4000 in
/-- C6 counterexample: for an index whose name is 65 characters long,
`render_create_index` truncates the name to the 64-character identifier
limit while `render_drop_index` renders the full name — the two statements
do not address the same index name. -/
theorem index_name_truncation_counterexample :
    (render_create_index_object
      ⟨String.mk (List.replicate 65 (Char.ofNat 97)), "T", ["c"], false⟩).index_name ≠
    (render_drop_index_object
      ⟨String.mk (List.replicate 65 (Char.ofNat 97)), "T", ["c"], false⟩).index_name := by
  decide

/-- C6 (amended): `render_create_index` truncates the index name to
`MYSQL_IDENTIFIER_SIZE_LIMIT` (64) characters when longer, while
`render_drop_index` never truncates; consequently the two render the same
index name exactly when the name is within the limit. -/
theorem index_name_truncation (idx : IndexData) :
    (render_create_index_object idx).index_name =
      (if idx.name.length > MYSQL_IDENTIFIER_SIZE_LIMIT then
        idx.name.take MYSQL_IDENTIFIER_SIZE_LIMIT
      else idx.name) ∧
    (render_drop_index_object idx).index_name = idx.name ∧
    (idx.name.length ≤ MYSQL_IDENTIFIER_SIZE_LIMIT →
      (render_create_index_object idx).index_name =
        (render_drop_index_object idx).index_name) := by
  refine ⟨rfl, rfl, ?_⟩
  intro h
  simp [render_create_index_object, render_drop_index_object]
  omega

/-- C6 witness: for a 3-character index name the rendered create and drop
names agree. -/
theorem index_name_truncation_witness :
    (render_create_index_object ⟨"idx", "T", ["c"], true⟩).index_name =
      (render_drop_index_object ⟨"idx", "T", ["c"], true⟩).index_name :=
  (index_name_truncation ⟨"idx", "T", ["c"], true⟩).2.2 (by decide)

lemma escapeChars_count (l : List Char) :
    (escapeChars l).count squote = 2 * l.count squote := by
  induction l with
  | nil => simp [escapeChars]
  | cons c rest ih =>
    by_cases hc : c = squote
    · subst hc
      simp [escapeChars, ih, List.count_cons]
      omega
    · simp [escapeChars, hc, ih, List.count_cons]

lemma escapeChars_eq_nil_iff (l : List Char) : escapeChars l = [] ↔ l = [] := by
  cases l with
  | nil => simp [escapeChars]
  | cons c rest =>
    constructor
    · intro h
      by_cases hc : c = squote <;> simp [escapeChars, hc] at h
    · intro h
      simp at h

lemma unescapeChars_escapeChars (l : List Char) :
    unescapeChars (escapeChars l) = l := by
  induction l with
  | nil => rfl
  | cons c rest ih =>
    by_cases hc : c = squote
    · subst hc
      simp [escapeChars, unescapeChars, ih]
    · rw [escapeChars]
      rw [if_neg hc]
      cases he : escapeChars rest with
      | nil =>
        have : rest = [] := (escapeChars_eq_nil_iff rest).mp he
        subst this
        rfl
      | cons d ds =>
        rw [unescapeChars]
        rw [if_neg (by simp [hc])]
        rw [← he, ih]

/-- C7 counterexample: the claim says every single quote in an enum variant
name is doubled in the rendered CREATE TYPE ... AS ENUM statement, but the
Postgres `StrLit` writer embeds the variant verbatim: the variant
`a\x27b` renders with its quote undoubled, differing from the
escaped-by-doubling rendering the spec describes. -/
theorem create_enum_escaping_counterexample :
    CreateEnum.render ⟨.Simple "myEnum", ["a\x27b"]⟩ ≠
      CreateEnum.renderPerSpec ⟨.Simple "myEnum", ["a\x27b"]⟩ ∧
    CreateEnum.render ⟨.Simple "myEnum", ["a\x27b"]⟩ =
      "CREATE TYPE \"myEnum\" AS ENUM (\x27a\x27b\x27)" := by
  constructor
  · decide
  · decide

/-- C7 (amended): the MySQL renderer escapes string literals by doubling
the quote character: a string default renders as the quoted
`escape_string_literal` output, which doubles exactly the single quotes
(quote count doubles, and collapsing doubled quotes recovers the original
string); the Postgres CREATE TYPE ... AS ENUM builder, by contrast, embeds
every variant name verbatim between quotes, without escaping. -/
theorem string_literal_escaping (v : String) :
    render_default ⟨.VALUE (.string v)⟩ ColumnTypeFamily.String =
      .ok (squoteStr ++ escape_string_literal v ++ squoteStr) ∧
    (escape_string_literal v).data.count squote = 2 * v.data.count squote ∧
    unescapeChars (escape_string_literal v).data = v.data ∧
    (∀ (n : PostgresIdentifier) (vs : List String),
      CreateEnum.render ⟨n, vs⟩ =
        "CREATE TYPE " ++ n.render ++ " AS ENUM (" ++
          joinSep ", " (vs.map (fun x => squoteStr ++ x ++ squoteStr)) ++ ")") := by
  refine ⟨rfl, ?_, ?_, ?_⟩
  · exact escapeChars_count v.data
  · exact unescapeChars_escapeChars v.data
  · intro n vs
    rfl

lemma renderChangeLines_ok_length (schemas : Pair SqlSchema) (tables : Pair Table) :
    ∀ (l : List TableChange) (l2 : List String),
      renderChangeLines schemas tables l = .ok l2 → l2.length = l.length := by
  intro l
  induction l with
  | nil =>
    intro l2 h
    cases h
    rfl
  | cons a rest ih =>
    intro l2 h
    cases hfa : renderTableChange schemas tables a with
    | error e => simp [renderChangeLines, hfa] at h
    | ok b =>
      cases hrest : renderChangeLines schemas tables rest with
      | error e => simp [renderChangeLines, hfa, hrest] at h
      | ok bs =>
        simp only [renderChangeLines, hfa, hrest] at h
        cases h
        simp [ih bs hrest]

/-- C8: `render_alter_table` renders one clause per `TableChange`, in the
emitted order; an `AlterTable` whose change list is empty (hence yields zero
clauses) renders no statement at all, and a non-empty change list renders
exactly one ALTER TABLE statement joining the clauses in order. -/
theorem render_alter_table_clauses (alter : AlterTable) (schemas : Pair SqlSchema)
    (tables : Pair Table) (lines : List String)
    (ht : schemasTables schemas alter.table_index = .ok tables)
    (hl : renderChangeLines schemas tables alter.changes = .ok lines) :
    lines.length = alter.changes.length ∧
    (alter.changes = [] → render_alter_table alter schemas = .ok []) ∧
    (alter.changes ≠ [] →
      render_alter_table alter schemas =
        .ok ["ALTER TABLE " ++ mysqlIdent tables.previous.name ++ " " ++
          joinSep ",\n    " lines]) := by
  have hlen := renderChangeLines_ok_length schemas tables alter.changes lines hl
  refine ⟨hlen, ?_, ?_⟩
  · intro hnil
    have h2 : lines = [] := by
      rw [hnil] at hlen
      exact List.length_eq_zero.mp hlen
    subst h2
    simp [render_alter_table, ht, hl]
  · intro hne
    have h2 : lines ≠ [] := by
      intro hcon
      apply hne
      rw [hcon] at hlen
      exact (List.length_eq_zero.mp hlen.symm)
    have hempty : lines.isEmpty = false := by
      cases hL : lines with
      | nil => exact absurd hL h2
      | cons a t => rfl
    simp [render_alter_table, ht, hl, hempty]

/-- C8 witness: a one-change list renders one statement with one clause,
and an empty change list renders no statement. -/
theorem render_alter_table_clauses_witness :
    render_alter_table ⟨⟨0, 0⟩, [.DropPrimaryKey]⟩
      ⟨⟨[⟨"T", [], []⟩], []⟩, ⟨[⟨"T", [], []⟩], []⟩⟩ =
      .ok ["ALTER TABLE `T` DROP PRIMARY KEY"] ∧
    render_alter_table ⟨⟨0, 0⟩, []⟩
      ⟨⟨[⟨"T", [], []⟩], []⟩, ⟨[⟨"T", [], []⟩], []⟩⟩ = .ok [] := by
  constructor
  · have h := render_alter_table_clauses ⟨⟨0, 0⟩, [.DropPrimaryKey]⟩
      ⟨⟨[⟨"T", [], []⟩], []⟩, ⟨[⟨"T", [], []⟩], []⟩⟩
      ⟨⟨"T", [], []⟩, ⟨"T", [], []⟩⟩ ["DROP PRIMARY KEY"] rfl rfl
    have h2 := h.2.2 (by simp)
    simpa using h2
  · have h := render_alter_table_clauses ⟨⟨0, 0⟩, []⟩
      ⟨⟨[⟨"T", [], []⟩], []⟩, ⟨[⟨"T", [], []⟩], []⟩⟩
      ⟨⟨"T", [], []⟩, ⟨"T", [], []⟩⟩ [] rfl rfl
    exact h.2.1 rfl

/-- C9: a drop-and-recreate index rename on MySQL always emits the
create-new-index statement strictly before the drop-old-index statement:
the rendered list is exactly `[create next, drop previous]`. -/
theorem drop_and_recreate_creates_before_drop (prev next : IndexData) :
    render_drop_and_recreate_index ⟨prev, next⟩ =
      [render_create_index next, render_drop_index prev] := rfl

/-- C10: a column whose default is of kind DBGENERATED or SEQUENCE renders
with no DEFAULT clause at all — `render_column` produces exactly the text it
would produce for the same column with no default — even though
`render_default` itself renders a DBGENERATED expression as its text. -/
theorem render_column_suppresses_generated_defaults (schema : SqlSchema)
    (table : Table) (column : Column) (d : DefaultValue)
    (hd : column.default = some d)
    (hk : (∃ v, d.kind = .DBGENERATED v) ∨ (∃ v, d.kind = .SEQUENCE v)) :
    render_column schema table column =
      render_column schema table { column with default := none } ∧
    (∀ (expr : String) (family : ColumnTypeFamily),
      render_default (DefaultValue.db_generated expr) family = .ok expr) := by
  constructor
  · rcases hk with ⟨v, hv⟩ | ⟨v, hv⟩ <;>
      (simp [render_column, hd, hv, Option.filter, renderableDefault]
       rfl)
  · intro expr family
    rfl

/-- C10 witness: a concrete column with a DBGENERATED default renders
identically to the same column without a default. -/
theorem render_column_suppresses_generated_defaults_witness :
    render_column ⟨[], []⟩ ⟨"T", [], []⟩
      ⟨"c", ⟨"INT", .Int⟩, true, some ⟨.DBGENERATED "x"⟩, false⟩ =
      render_column ⟨[], []⟩ ⟨"T", [], []⟩
        ⟨"c", ⟨"INT", .Int⟩, true, none, false⟩ ∧
    render_default (DefaultValue.db_generated "x") ColumnTypeFamily.Int =
      .ok "x" := by
  have h := render_column_suppresses_generated_defaults ⟨[], []⟩ ⟨"T", [], []⟩
    ⟨"c", ⟨"INT", .Int⟩, true, some ⟨.DBGENERATED "x"⟩, false⟩
    ⟨.DBGENERATED "x"⟩ rfl (Or.inl ⟨"x", rfl⟩)
  exact ⟨h.1, h.2 "x" ColumnTypeFamily.Int⟩

end Prisma
